import Mathlib

/-!
Shallow embedding of `src/tracker.py` (class `FitnessTracker`).

Numeric values (Python floats/ints) are modelled exactly as rationals `ℚ`;
dates and other text as `String`.  Python exceptions are modelled with an
error type `Err` and `Except`:
  * `Err.valueError`  models Python `ValueError` (the spec's ValidationError),
  * `Err.keyError`    models Python `KeyError` (raised by `data[k]` on a
                      missing dict key),
  * `Err.formatError` models the spec's FormatError, which the source never
                      raises; it is present so that statements can say that a
                      failure is NOT a FormatError.
File I/O is abstracted away: `save_to_file` produces a `Snapshot` value (the
JSON object written to disk) and `load_from_file` consumes one.  The system
clock is abstracted: operations that read `datetime.date.today()` take the
current date as an explicit argument.  `print` calls are ignored except where
their computed figures are the observable output of a query
(`daily_summary`, `weekly_summary`, `view_logs`), in which case the figures
are gathered into a result structure.
-/

/-- A food log entry, as appended by `log_food` (lines 57–60):
`{'date': ..., 'meal': ..., 'calories': ..., 'nutrition': {'protein': ..., 'carbs': ..., 'fats': ...}}`
(the `nutrition` sub-dict is flattened into three fields). -/
structure FoodEntry where
  date : String
  meal : String
  calories : ℚ
  protein : ℚ
  carbs : ℚ
  fats : ℚ
deriving DecidableEq

/-- An exercise log entry, as appended by `log_exercise` (lines 65–67). -/
structure ExerciseEntry where
  date : String
  activity : String
  calories_burned : ℚ
deriving DecidableEq

/-- The `macro_goals` dict (line 30): `{'protein': 0.30, 'carbs': 0.50, 'fats': 0.20}`. -/
structure MacroGoals where
  protein : ℚ
  carbs : ℚ
  fats : ℚ
deriving DecidableEq

/-- The state of a `FitnessTracker` object: profile fields, derived metrics,
the two logs and the macro goals. -/
structure Store where
  height : ℚ
  weight : ℚ
  goal_weight : ℚ
  age : ℚ
  gender : String
  activity_level : String
  bmr : ℚ
  tdee : ℚ
  daily_calorie_goal : ℚ
  bmi : ℚ
  food_logs : List FoodEntry
  exercise_logs : List ExerciseEntry
  macro_goals : MacroGoals
deriving DecidableEq

/-- Python exceptions raised by the tracker (`formatError` is never raised by
the source; see the module comment). -/
inductive Err where
  | valueError (msg : String)
  | keyError (key : String)
  | formatError (msg : String)
deriving DecidableEq

/-- True exactly on the `formatError` constructor. -/
def Err.isFormat : Err → Bool
  | .formatError _ => true
  | _ => false

/-- Python `str.lower()`, character by character (the source only ever
lowercases ASCII input). -/
def strLower (s : String) : String := ⟨s.data.map Char.toLower⟩

/-- Lexicographic `<` on character lists by code point, as Python compares
strings. -/
def ltCh : List Char → List Char → Bool
  | [], [] => false
  | [], _ :: _ => true
  | _ :: _, [] => false
  | a :: as, b :: bs =>
    if a.toNat < b.toNat then true
    else if b.toNat < a.toNat then false
    else ltCh as bs

/-- Python `a >= b` on strings (used by `weekly_summary` at line 101:
`log['date'] >= week_start`). -/
def strGe (a b : String) : Bool := ! ltCh a.data b.data

/-- `calculate_bmr` (lines 40–43): Harris-Benedict revised formula, male
branch when `gender == 'male'`, otherwise the female formula. -/
def calculate_bmr (gender : String) (weight height age : ℚ) : ℚ :=
  if gender = "male" then
    88.362 + (13.397 * weight) + (4.799 * height) - (5.677 * age)
  else
    447.593 + (9.247 * weight) + (3.098 * height) - (4.330 * age)

/-- The `factors` dict of `calculate_tdee` (line 46); `none` models a
`KeyError` on lookup of an unknown activity level. -/
def activityFactor : String → Option ℚ
  | "sedentary" => some 1.2
  | "light" => some 1.375
  | "moderate" => some 1.55
  | "active" => some 1.725
  | "very_active" => some 1.9
  | _ => none

/-- `calculate_daily_calories` (lines 49–53). -/
def calculate_daily_calories (tdee weight goal_weight : ℚ) : ℚ :=
  if goal_weight - weight < 0 then tdee - 500
  else if goal_weight - weight > 0 then tdee + 500
  else tdee

/-- The gender whitelist of `__init__` (line 10). -/
def genderList : List String := ["male", "female"]

/-- The activity-level whitelist of `__init__` (line 12). -/
def activityList : List String :=
  ["sedentary", "light", "moderate", "active", "very_active"]

/-- The store built by a successful `__init__` from already-lowercased
`gender`/`activity_level` and the activity factor `f` looked up for it. -/
def mkValidStore (height weight goal_weight age : ℚ) (gender activity_level : String)
    (f : ℚ) : Store :=
  let bmr := calculate_bmr gender weight height age
  { height := height
    weight := weight
    goal_weight := goal_weight
    age := age
    gender := gender
    activity_level := activity_level
    bmr := bmr
    tdee := bmr * f
    daily_calorie_goal := calculate_daily_calories (bmr * f) weight goal_weight
    bmi := weight / ((height / 100) ^ 2)
    food_logs := []
    exercise_logs := []
    macro_goals := { protein := 0.30, carbs := 0.50, fats := 0.20 } }

/-- `FitnessTracker.__init__` (lines 6–31): validation in source order, then
computation of the derived metrics, empty logs and default macro goals.  A
raised `ValueError` becomes `Except.error (Err.valueError msg)` with the
source's message. -/
def construct (height weight goal_weight age : ℚ) (gender activity_level : String) :
    Except Err Store :=
  if height ≤ 0 ∨ weight ≤ 0 ∨ goal_weight ≤ 0 ∨ age < 18 ∨ age > 100 then
    .error (.valueError "Invalid values: Height/weight must be >0, age 18-100.")
  else if strLower gender ∉ genderList then
    .error (.valueError "Gender must be 'male' or 'female'.")
  else if strLower activity_level ∉ activityList then
    .error (.valueError "Invalid activity level.")
  else
    match activityFactor (strLower activity_level) with
    | none => .error (.keyError (strLower activity_level))
    | some f =>
      .ok (mkValidStore height weight goal_weight age
        (strLower gender) (strLower activity_level) f)

/-- `log_food` (lines 55–61); `today` is `datetime.date.today().isoformat()`.
No validation is performed: the entry is appended unconditionally. -/
def log_food (s : Store) (meal : String) (calories protein carbs fats : ℚ)
    (today : String) : Store :=
  { s with
    food_logs := s.food_logs ++
      [{ date := today, meal := meal, calories := calories,
         protein := protein, carbs := carbs, fats := fats }] }

/-- `log_exercise` (lines 63–68); appended unconditionally, dated `today`. -/
def log_exercise (s : Store) (activity : String) (calories_burned : ℚ)
    (today : String) : Store :=
  { s with
    exercise_logs := s.exercise_logs ++
      [{ date := today, activity := activity, calories_burned := calories_burned }] }

/-- The figures computed (and printed) by `daily_summary` (lines 70–95).
`macro_pcts = none` models the `else` branch ("No macros logged yet") where
the three percentage divisions are never executed. -/
structure DailySummary where
  food_cal : ℚ
  exercise_cal : ℚ
  net_cal : ℚ
  cal_diff : ℚ
  status : String
  total_protein : ℚ
  total_carbs : ℚ
  total_fats : ℚ
  total_macros_cal : ℚ
  macro_pcts : Option (ℚ × ℚ × ℚ)
deriving DecidableEq

/-- `daily_summary` (lines 70–95) for an explicitly given target date
(the source defaults `date_str` to today's ISO date). -/
def daily_summary (s : Store) (date_str : String) : DailySummary :=
  let food_cal := ((s.food_logs.filter fun l => l.date == date_str).map
    fun l => l.calories).sum
  let exercise_cal := ((s.exercise_logs.filter fun l => l.date == date_str).map
    fun l => l.calories_burned).sum
  let net_cal := food_cal - exercise_cal - s.bmr
  let cal_diff := net_cal - (s.daily_calorie_goal - s.tdee + s.bmr)
  let status := if cal_diff < 0 then "under" else if cal_diff > 0 then "over" else "on"
  let total_protein := ((s.food_logs.filter fun l => l.date == date_str).map
    fun l => l.protein).sum
  let total_carbs := ((s.food_logs.filter fun l => l.date == date_str).map
    fun l => l.carbs).sum
  let total_fats := ((s.food_logs.filter fun l => l.date == date_str).map
    fun l => l.fats).sum
  let total_macros_cal := total_protein * 4 + total_carbs * 4 + total_fats * 9
  let macro_pcts :=
    if total_macros_cal > 0 then
      some (total_protein * 4 / total_macros_cal, total_carbs * 4 / total_macros_cal,
        total_fats * 9 / total_macros_cal)
    else none
  { food_cal := food_cal, exercise_cal := exercise_cal, net_cal := net_cal,
    cal_diff := cal_diff, status := status, total_protein := total_protein,
    total_carbs := total_carbs, total_fats := total_fats,
    total_macros_cal := total_macros_cal, macro_pcts := macro_pcts }

/-- A calendar date, as `datetime.date` holds it. -/
structure Date where
  year : ℕ
  month : ℕ
  day : ℕ
deriving DecidableEq

/-- Gregorian leap-year rule. -/
def isLeap (y : ℕ) : Bool := (y % 4 == 0 && y % 100 != 0) || (y % 400 == 0)

/-- Days in a month of the Gregorian calendar. -/
def daysInMonth (y m : ℕ) : ℕ :=
  if m = 2 then (if isLeap y then 29 else 28)
  else if m = 4 ∨ m = 6 ∨ m = 9 ∨ m = 11 then 30
  else 31

/-- The calendar day before `d`. -/
def prevDay (d : Date) : Date :=
  if d.day > 1 then ⟨d.year, d.month, d.day - 1⟩
  else if d.month > 1 then ⟨d.year, d.month - 1, daysInMonth d.year (d.month - 1)⟩
  else ⟨d.year - 1, 12, 31⟩

/-- `d - datetime.timedelta(days=n)`. -/
def subDays (d : Date) : ℕ → Date
  | 0 => d
  | n + 1 => subDays (prevDay d) n

/-- Zero-pad a number to two digits. -/
def pad2 (n : ℕ) : String := if n < 10 then "0" ++ Nat.repr n else Nat.repr n

/-- Zero-pad a number to four digits. -/
def pad4 (n : ℕ) : String :=
  if n < 10 then "000" ++ Nat.repr n
  else if n < 100 then "00" ++ Nat.repr n
  else if n < 1000 then "0" ++ Nat.repr n
  else Nat.repr n

/-- `datetime.date.isoformat()`: `YYYY-MM-DD`. -/
def Date.isoformat (d : Date) : String :=
  pad4 d.year ++ "-" ++ pad2 d.month ++ "-" ++ pad2 d.day

/-- The figures computed (and printed) by `weekly_summary` (lines 98–107). -/
structure WeeklySummary where
  food_cal : ℚ
  exercise_cal : ℚ
  avg_net : ℚ
  est_weight_change : ℚ
  direction : String
deriving DecidableEq

/-- `weekly_summary` (lines 98–107); `today` is `datetime.date.today()`.
`week_start` is the ISO string of `today - timedelta(days=6)`, and entries are
kept by the string comparison `log['date'] >= week_start`. -/
def weekly_summary (s : Store) (today : Date) : WeeklySummary :=
  let week_start := (subDays today 6).isoformat
  let food_cal := ((s.food_logs.filter fun l => strGe l.date week_start).map
    fun l => l.calories).sum
  let exercise_cal := ((s.exercise_logs.filter fun l => strGe l.date week_start).map
    fun l => l.calories_burned).sum
  let avg_net := (food_cal - exercise_cal - s.bmr * 7) / 7
  let est_weight_change := (food_cal - exercise_cal - s.tdee * 7) / 7700
  { food_cal := food_cal, exercise_cal := exercise_cal, avg_net := avg_net,
    est_weight_change := est_weight_change,
    direction := if est_weight_change < 0 then "loss" else "gain" }

/-- The date filter of `view_logs` (lines 114 and 119):
`date_str is None or log['date'] == date_str`. -/
def matchesDate (date_str : Option String) (d : String) : Bool :=
  match date_str with
  | none => true
  | some x => d == x

/-- `view_logs` (lines 110–120): the insertion-ordered entries printed for the
requested type and optional date filter, as a pair (food shown, exercise
shown). -/
def view_logs (s : Store) (type : String) (date_str : Option String) :
    List FoodEntry × List ExerciseEntry :=
  ( if type == "food" || type == "all" then
      s.food_logs.filter fun l => matchesDate date_str l.date
    else []
  , if type == "exercise" || type == "all" then
      s.exercise_logs.filter fun l => matchesDate date_str l.date
    else [] )

/-- `daily_summary` as a state transformer: the source method reads `self` and
never assigns to any attribute, so the post-call state is the input state. -/
def daily_summaryS (s : Store) (date_str : String) : DailySummary × Store :=
  (daily_summary s date_str, s)

/-- `weekly_summary` as a state transformer (no attribute of `self` is
assigned by the source method). -/
def weekly_summaryS (s : Store) (today : Date) : WeeklySummary × Store :=
  (weekly_summary s today, s)

/-- `view_logs` as a state transformer (no attribute of `self` is assigned by
the source method). -/
def view_logsS (s : Store) (type : String) (date_str : Option String) :
    (List FoodEntry × List ExerciseEntry) × Store :=
  (view_logs s type date_str, s)

/-- The JSON object written by `save_to_file` / read by `load_from_file`
(lines 122–149).  Each top-level key is an `Option`: `none` models a missing
key, on which Python's `data[k]` raises `KeyError`.  Derived metrics (bmr,
tdee, daily_calorie_goal, bmi) have no key: the source does not persist
them. -/
structure Snapshot where
  height : Option ℚ
  weight : Option ℚ
  goal_weight : Option ℚ
  age : Option ℚ
  gender : Option String
  activity_level : Option String
  food_logs : Option (List FoodEntry)
  exercise_logs : Option (List ExerciseEntry)
  macro_goals : Option MacroGoals
deriving DecidableEq

/-- `save_to_file` (lines 122–131): the `data` dict that is JSON-dumped; all
nine keys are present. -/
def save_to_file (s : Store) : Snapshot :=
  { height := some s.height
    weight := some s.weight
    goal_weight := some s.goal_weight
    age := some s.age
    gender := some s.gender
    activity_level := some s.activity_level
    food_logs := some s.food_logs
    exercise_logs := some s.exercise_logs
    macro_goals := some s.macro_goals }

/-- `load_from_file` (lines 133–149) on an existing snapshot file: the six
profile keys are read (`KeyError` if missing), the constructor runs (its
`ValueError` propagates), then `food_logs` and `exercise_logs` are read
(`KeyError` if missing) and overlaid verbatim, and `macro_goals` is overlaid
only if present.  The lookup order matches the source's evaluation order. -/
def load_from_file (d : Snapshot) : Except Err Store :=
  match d.height with
  | none => .error (.keyError "height")
  | some height =>
  match d.weight with
  | none => .error (.keyError "weight")
  | some weight =>
  match d.goal_weight with
  | none => .error (.keyError "goal_weight")
  | some goal_weight =>
  match d.age with
  | none => .error (.keyError "age")
  | some age =>
  match d.gender with
  | none => .error (.keyError "gender")
  | some gender =>
  match d.activity_level with
  | none => .error (.keyError "activity_level")
  | some activity_level =>
  match construct height weight goal_weight age gender activity_level with
  | .error e => .error e
  | .ok t =>
  match d.food_logs with
  | none => .error (.keyError "food_logs")
  | some fl =>
  match d.exercise_logs with
  | none => .error (.keyError "exercise_logs")
  | some el =>
  let t := { t with food_logs := fl, exercise_logs := el }
  match d.macro_goals with
  | none => .ok t
  | some mg => .ok { t with macro_goals := mg }

/-- A store is well-formed when the constructor, run on its six profile
fields, reproduces it exactly up to its logs and macro goals: its stored
gender/activity level are already lowercased and valid, and its derived
metrics are the computed ones.  Every store the source ever builds is of this
shape. -/
def WF (s : Store) : Prop :=
  construct s.height s.weight s.goal_weight s.age s.gender s.activity_level =
    .ok { s with
      food_logs := []
      exercise_logs := []
      macro_goals := { protein := 0.30, carbs := 0.50, fats := 0.20 } }

/-! ### Helper lemmas about the constructor -/

theorem construct_eq_ok (h w gw a : ℚ) (g al : String) (f : ℚ)
    (hv : ¬(h ≤ 0 ∨ w ≤ 0 ∨ gw ≤ 0 ∨ a < 18 ∨ a > 100))
    (hg : strLower g ∈ genderList)
    (ha : strLower al ∈ activityList)
    (hf : activityFactor (strLower al) = some f) :
    construct h w gw a g al
      = .ok (mkValidStore h w gw a (strLower g) (strLower al) f) := by
  unfold construct
  rw [if_neg hv, if_neg (not_not_intro hg), if_neg (not_not_intro ha), hf]

theorem construct_eq_err_nums (h w gw a : ℚ) (g al : String)
    (hv : h ≤ 0 ∨ w ≤ 0 ∨ gw ≤ 0 ∨ a < 18 ∨ a > 100) :
    construct h w gw a g al
      = .error (.valueError "Invalid values: Height/weight must be >0, age 18-100.") := by
  unfold construct
  rw [if_pos hv]

theorem construct_eq_err_gender (h w gw a : ℚ) (g al : String)
    (hv : ¬(h ≤ 0 ∨ w ≤ 0 ∨ gw ≤ 0 ∨ a < 18 ∨ a > 100))
    (hg : strLower g ∉ genderList) :
    construct h w gw a g al
      = .error (.valueError "Gender must be 'male' or 'female'.") := by
  unfold construct
  rw [if_neg hv, if_pos hg]

theorem construct_eq_err_activity (h w gw a : ℚ) (g al : String)
    (hv : ¬(h ≤ 0 ∨ w ≤ 0 ∨ gw ≤ 0 ∨ a < 18 ∨ a > 100))
    (hg : strLower g ∈ genderList)
    (ha : strLower al ∉ activityList) :
    construct h w gw a g al = .error (.valueError "Invalid activity level.") := by
  unfold construct
  rw [if_neg hv, if_neg (not_not_intro hg), if_pos ha]

theorem activityFactor_isSome (al : String) (ha : al ∈ activityList) :
    ∃ f, activityFactor al = some f := by
  simp only [activityList, List.mem_cons, List.not_mem_nil, or_false] at ha
  rcases ha with rfl | rfl | rfl | rfl | rfl <;> exact ⟨_, rfl⟩

theorem construct_ok_elim (h w gw a : ℚ) (g al : String) (t : Store)
    (hc : construct h w gw a g al = .ok t) :
    ∃ f, activityFactor (strLower al) = some f
      ∧ t = mkValidStore h w gw a (strLower g) (strLower al) f := by
  by_cases hv : h ≤ 0 ∨ w ≤ 0 ∨ gw ≤ 0 ∨ a < 18 ∨ a > 100
  · rw [construct_eq_err_nums h w gw a g al hv] at hc
    exact Except.noConfusion hc
  · by_cases hg : strLower g ∈ genderList
    · by_cases ha : strLower al ∈ activityList
      · obtain ⟨f, hf⟩ := activityFactor_isSome _ ha
        rw [construct_eq_ok h w gw a g al f hv hg ha hf] at hc
        simp only [Except.ok.injEq] at hc
        exact ⟨f, hf, hc.symm⟩
      · rw [construct_eq_err_activity h w gw a g al hv hg ha] at hc
        exact Except.noConfusion hc
    · rw [construct_eq_err_gender h w gw a g al hv hg] at hc
      exact Except.noConfusion hc

theorem construct_error_not_format (h w gw a : ℚ) (g al : String) (e : Err)
    (hc : construct h w gw a g al = .error e) : Err.isFormat e = false := by
  by_cases hv : h ≤ 0 ∨ w ≤ 0 ∨ gw ≤ 0 ∨ a < 18 ∨ a > 100
  · rw [construct_eq_err_nums h w gw a g al hv] at hc
    simp only [Except.error.injEq] at hc
    rw [← hc]
    rfl
  · by_cases hg : strLower g ∈ genderList
    · by_cases ha : strLower al ∈ activityList
      · obtain ⟨f, hf⟩ := activityFactor_isSome _ ha
        rw [construct_eq_ok h w gw a g al f hv hg ha hf] at hc
        exact Except.noConfusion hc
      · rw [construct_eq_err_activity h w gw a g al hv hg ha] at hc
        simp only [Except.error.injEq] at hc
        rw [← hc]
        rfl
    · rw [construct_eq_err_gender h w gw a g al hv hg] at hc
      simp only [Except.error.injEq] at hc
      rw [← hc]
      rfl

theorem construct_demo_male :
    construct 180 80 75 30 "male" "sedentary"
      = .ok (mkValidStore 180 80 75 30 "male" "sedentary" 1.2) := by
  have := construct_eq_ok 180 80 75 30 "male" "sedentary" 1.2
    (by norm_num) (by decide) (by decide) rfl
  simpa using this

theorem construct_demo_bulk :
    construct 180 80 85 30 "male" "sedentary"
      = .ok (mkValidStore 180 80 85 30 "male" "sedentary" 1.2) := by
  have := construct_eq_ok 180 80 85 30 "male" "sedentary" 1.2
    (by norm_num) (by decide) (by decide) rfl
  simpa using this

theorem construct_demo_maintain :
    construct 180 80 80 30 "male" "sedentary"
      = .ok (mkValidStore 180 80 80 30 "male" "sedentary" 1.2) := by
  have := construct_eq_ok 180 80 80 30 "male" "sedentary" 1.2
    (by norm_num) (by decide) (by decide) rfl
  simpa using this

theorem construct_demo_female :
    construct 165 60 65 40 "female" "moderate"
      = .ok (mkValidStore 165 60 65 40 "female" "moderate" 1.55) := by
  have := construct_eq_ok 165 60 65 40 "female" "moderate" 1.55
    (by norm_num) (by decide) (by decide) rfl
  simpa using this

/-! ### Helper lemmas about list aggregation -/

theorem sum_map_filter_date {α : Type} (l : List α) (dt : α → String) (d : String)
    (f : α → ℚ) :
    ((l.filter fun e => dt e == d).map f).sum
      = (l.map fun e => if dt e = d then f e else 0).sum := by
  induction l with
  | nil => rfl
  | cons x xs ih =>
    by_cases hx : dt x = d
    · simp [List.filter_cons, hx, ih]
    · simp [List.filter_cons, hx, ih]

theorem filter_congr_mem {α : Type} (l : List α) (p q : α → Bool)
    (hpq : ∀ e ∈ l, p e = q e) : l.filter p = l.filter q := by
  induction l with
  | nil => rfl
  | cons x xs ih =>
    have hx := hpq x (by simp)
    have ih' := ih fun e he => hpq e (by simp [he])
    simp only [List.filter_cons, hx, ih']

theorem filter_eq_nil_of_none {α : Type} (l : List α) (p : α → Bool)
    (hp : ∀ e ∈ l, p e = false) : l.filter p = [] := by
  induction l with
  | nil => rfl
  | cons x xs ih =>
    have hx := hp x (by simp)
    have ih' := ih fun e he => hp e (by simp [he])
    simp only [List.filter_cons, hx, ih']
    simp

/-! ### Demonstration data used by witnesses -/

/-- A concrete food entry (any date/values; used by witnesses). -/
def demoFood : FoodEntry :=
  { date := "2026-10-10", meal := "oats", calories := 389, protein := 17,
    carbs := 66, fats := 7 }

/-- A concrete exercise entry (used by witnesses). -/
def demoExercise : ExerciseEntry :=
  { date := "2026-10-11", activity := "run", calories_burned := 300 }

/-- A concrete well-formed store with one entry in each log and customised
macro goals. -/
def demoStore : Store :=
  { mkValidStore 180 80 75 30 "male" "sedentary" 1.2 with
    food_logs := [demoFood]
    exercise_logs := [demoExercise]
    macro_goals := { protein := 0.25, carbs := 0.45, fats := 0.30 } }

/-! ### Claim C1 -/

/-- Claim C1: for every well-formed store (any number of log entries),
serialising and then deserialising reproduces the store exactly — profile
fields, both log sequences in order, macro goals, and the derived metrics
(bmr, tdee, daily_calorie_goal, bmi), the latter recomputed by the
constructor from the persisted profile fields (the `Snapshot` type has no
field for them) rather than read back. -/
theorem c1_serialize_round_trip (s : Store) (hs : WF s) :
    load_from_file (save_to_file s) = .ok s := by
  have hs' : construct s.height s.weight s.goal_weight s.age s.gender s.activity_level
      = .ok { s with
              food_logs := []
              exercise_logs := []
              macro_goals := { protein := 0.30, carbs := 0.50, fats := 0.20 } } := hs
  have h1 : load_from_file (save_to_file s)
      = match construct s.height s.weight s.goal_weight s.age s.gender s.activity_level with
        | .error e => Except.error e
        | .ok t => Except.ok { t with
            food_logs := s.food_logs
            exercise_logs := s.exercise_logs
            macro_goals := s.macro_goals } := rfl
  rw [h1, hs']

/-- Witness for C1 at a concrete store with one food entry, one exercise
entry and non-default macro goals. -/
theorem c1_witness : load_from_file (save_to_file demoStore) = .ok demoStore := by
  apply c1_serialize_round_trip
  show construct 180 80 75 30 "male" "sedentary"
      = .ok { demoStore with
              food_logs := []
              exercise_logs := []
              macro_goals := { protein := 0.30, carbs := 0.50, fats := 0.20 } }
  rw [construct_demo_male]
  rfl

/-! ### Claim C2 -/

/-- Counterexample to C2's concrete figures: for height=180, weight=80,
age=30, male, sedentary the source computes BMR = 1853.632 (and hence
TDEE = 2224.3584), not the claimed 1853.196. -/
theorem c2_counterexample :
    (construct 180 80 75 30 "male" "sedentary").toOption.map Store.bmr = some 1853.632
    ∧ (1853.632 : ℚ) ≠ 1853.196 := by
  constructor
  · rw [construct_demo_male]
    exact congrArg some (by norm_num [mkValidStore, calculate_bmr])
  · norm_num

/-- Claim C2 (amended): for every successfully constructed store the BMR
follows the male/female Harris-Benedict formula for its gender and the TDEE
is BMR times the activity factor of its activity level; for
height=180, weight=80, age=30, male, sedentary this gives BMR = 1853.632 and
TDEE = 2224.3584 (the claim's 1853.196 / 2223.8352 are arithmetically
wrong). -/
theorem c2_bmr_tdee_formulas (h w gw a : ℚ) (g al : String) (t : Store)
    (hc : construct h w gw a g al = .ok t) :
    (t.gender = "male" →
      t.bmr = 88.362 + 13.397 * t.weight + 4.799 * t.height - 5.677 * t.age)
    ∧ (t.gender = "female" →
      t.bmr = 447.593 + 9.247 * t.weight + 3.098 * t.height - 4.330 * t.age)
    ∧ (t.activity_level = "sedentary" → t.tdee = t.bmr * 1.2)
    ∧ (t.activity_level = "light" → t.tdee = t.bmr * 1.375)
    ∧ (t.activity_level = "moderate" → t.tdee = t.bmr * 1.55)
    ∧ (t.activity_level = "active" → t.tdee = t.bmr * 1.725)
    ∧ (t.activity_level = "very_active" → t.tdee = t.bmr * 1.9)
    ∧ (construct 180 80 75 30 "male" "sedentary").toOption.map Store.bmr
        = some 1853.632
    ∧ (construct 180 80 75 30 "male" "sedentary").toOption.map Store.tdee
        = some 2224.3584 := by
  obtain ⟨f, hf, rfl⟩ := construct_ok_elim h w gw a g al t hc
  refine ⟨?_, ?_, ?_, ?_, ?_, ?_, ?_, ?_, ?_⟩
  · intro hm
    simp only [mkValidStore] at hm ⊢
    rw [hm]
    unfold calculate_bmr
    rw [if_pos rfl]
  · intro hm
    simp only [mkValidStore] at hm ⊢
    rw [hm]
    unfold calculate_bmr
    rw [if_neg (by decide : ¬("female" = "male"))]
  · intro hm
    simp only [mkValidStore] at hm ⊢
    rw [hm] at hf
    simp only [activityFactor] at hf
    rw [Option.some_inj.mp hf]
  · intro hm
    simp only [mkValidStore] at hm ⊢
    rw [hm] at hf
    simp only [activityFactor] at hf
    rw [Option.some_inj.mp hf]
  · intro hm
    simp only [mkValidStore] at hm ⊢
    rw [hm] at hf
    simp only [activityFactor] at hf
    rw [Option.some_inj.mp hf]
  · intro hm
    simp only [mkValidStore] at hm ⊢
    rw [hm] at hf
    simp only [activityFactor] at hf
    rw [Option.some_inj.mp hf]
  · intro hm
    simp only [mkValidStore] at hm ⊢
    rw [hm] at hf
    simp only [activityFactor] at hf
    rw [Option.some_inj.mp hf]
  · rw [construct_demo_male]
    exact congrArg some (by norm_num [mkValidStore, calculate_bmr])
  · rw [construct_demo_male]
    exact congrArg some (by norm_num [mkValidStore, calculate_bmr])

/-- Witness for C2 at the male/sedentary and female/moderate demo profiles. -/
theorem c2_witness :
    (mkValidStore 180 80 75 30 "male" "sedentary" 1.2).tdee
      = (mkValidStore 180 80 75 30 "male" "sedentary" 1.2).bmr * 1.2
    ∧ (mkValidStore 165 60 65 40 "female" "moderate" 1.55).bmr
      = 447.593 + 9.247 * (mkValidStore 165 60 65 40 "female" "moderate" 1.55).weight
        + 3.098 * (mkValidStore 165 60 65 40 "female" "moderate" 1.55).height
        - 4.330 * (mkValidStore 165 60 65 40 "female" "moderate" 1.55).age := by
  constructor
  · exact (c2_bmr_tdee_formulas 180 80 75 30 "male" "sedentary" _
      construct_demo_male).2.2.1 rfl
  · exact (c2_bmr_tdee_formulas 165 60 65 40 "female" "moderate" _
      construct_demo_female).2.1 rfl

/-! ### Claim C3 -/

/-- Claim C3: for every successfully constructed store, with
d = goal_weight − weight, the daily calorie goal is TDEE − 500 when d < 0,
TDEE + 500 when d > 0, and exactly TDEE when d = 0. -/
theorem c3_daily_goal_branches (h w gw a : ℚ) (g al : String) (t : Store)
    (hc : construct h w gw a g al = .ok t) :
    (t.goal_weight - t.weight < 0 → t.daily_calorie_goal = t.tdee - 500)
    ∧ (t.goal_weight - t.weight > 0 → t.daily_calorie_goal = t.tdee + 500)
    ∧ (t.goal_weight - t.weight = 0 → t.daily_calorie_goal = t.tdee) := by
  obtain ⟨f, hf, rfl⟩ := construct_ok_elim h w gw a g al t hc
  simp only [mkValidStore]
  unfold calculate_daily_calories
  refine ⟨?_, ?_, ?_⟩ <;> intro hd
  · rw [if_pos hd]
  · rw [if_neg (not_lt.mpr hd.le), if_pos hd]
  · rw [if_neg (by rw [hd]; exact lt_irrefl 0), if_neg (by rw [hd]; exact lt_irrefl 0)]

/-- Witness for C3: cutting (75 < 80), bulking (85 > 80) and maintaining
(80 = 80) demo profiles. -/
theorem c3_witness :
    (mkValidStore 180 80 75 30 "male" "sedentary" 1.2).daily_calorie_goal
      = (mkValidStore 180 80 75 30 "male" "sedentary" 1.2).tdee - 500
    ∧ (mkValidStore 180 80 85 30 "male" "sedentary" 1.2).daily_calorie_goal
      = (mkValidStore 180 80 85 30 "male" "sedentary" 1.2).tdee + 500
    ∧ (mkValidStore 180 80 80 30 "male" "sedentary" 1.2).daily_calorie_goal
      = (mkValidStore 180 80 80 30 "male" "sedentary" 1.2).tdee := by
  refine ⟨(c3_daily_goal_branches 180 80 75 30 "male" "sedentary" _
      construct_demo_male).1 ?_,
    (c3_daily_goal_branches 180 80 85 30 "male" "sedentary" _
      construct_demo_bulk).2.1 ?_,
    (c3_daily_goal_branches 180 80 80 30 "male" "sedentary" _
      construct_demo_maintain).2.2 ?_⟩
  · norm_num [mkValidStore]
  · norm_num [mkValidStore]
  · norm_num [mkValidStore]

/-! ### Claim C4 -/

/-- Claim C4: for every store and target date, daily_summary's figures
satisfy: food_cal is the sum of calories over food entries dated exactly the
target date, exercise_cal the analogous sum of calories_burned,
net_cal = food_cal − exercise_cal − BMR (BMR, not TDEE),
cal_diff = net_cal − (daily_calorie_goal − TDEE + BMR), and status is
"under"/"over"/"on" according to the sign of cal_diff. -/
theorem c4_daily_summary_figures (s : Store) (d : String) :
    (daily_summary s d).food_cal
      = (s.food_logs.map fun e => if e.date = d then e.calories else 0).sum
    ∧ (daily_summary s d).exercise_cal
      = (s.exercise_logs.map fun e => if e.date = d then e.calories_burned else 0).sum
    ∧ (daily_summary s d).net_cal
      = (daily_summary s d).food_cal - (daily_summary s d).exercise_cal - s.bmr
    ∧ (daily_summary s d).cal_diff
      = (daily_summary s d).net_cal - (s.daily_calorie_goal - s.tdee + s.bmr)
    ∧ (daily_summary s d).status
      = (if (daily_summary s d).cal_diff < 0 then "under"
         else if (daily_summary s d).cal_diff > 0 then "over" else "on") := by
  refine ⟨?_, ?_, rfl, rfl, rfl⟩
  · exact sum_map_filter_date s.food_logs (fun e => e.date) d (fun e => e.calories)
  · exact sum_map_filter_date s.exercise_logs (fun e => e.date) d
      (fun e => e.calories_burned)

/-! ### Claim C5 -/

/-- Claim C5: for every store all of whose entries are dated no later than
today (as every entry logged by the source is), the entries summed by
weekly_summary are exactly those in the two-sided window
[today − 6 days, today], compared by ISO-date string ordering, and an entry
dated exactly 7 days before today is excluded (its date string is
lexicographically below week_start, hypothesis h7, discharged by computation
in the witness). -/
theorem c5_weekly_window (s : Store) (today : Date)
    (hfood : ∀ e ∈ s.food_logs, strGe today.isoformat e.date = true)
    (hex : ∀ e ∈ s.exercise_logs, strGe today.isoformat e.date = true)
    (h7 : ltCh ((subDays today 7).isoformat).data ((subDays today 6).isoformat).data
      = true) :
    ((weekly_summary s today).food_cal
      = ((s.food_logs.filter fun e => strGe e.date ((subDays today 6).isoformat)
          && strGe today.isoformat e.date).map fun e => e.calories).sum)
    ∧ ((weekly_summary s today).exercise_cal
      = ((s.exercise_logs.filter fun e => strGe e.date ((subDays today 6).isoformat)
          && strGe today.isoformat e.date).map fun e => e.calories_burned).sum)
    ∧ (∀ e ∈ s.food_logs, e.date = (subDays today 7).isoformat →
        strGe e.date ((subDays today 6).isoformat) = false)
    ∧ (∀ e ∈ s.exercise_logs, e.date = (subDays today 7).isoformat →
        strGe e.date ((subDays today 6).isoformat) = false) := by
  refine ⟨?_, ?_, ?_, ?_⟩
  · have hcong := filter_congr_mem s.food_logs
      (fun e => strGe e.date ((subDays today 6).isoformat))
      (fun e => strGe e.date ((subDays today 6).isoformat) && strGe today.isoformat e.date)
      (fun e he => by simp only [hfood e he, Bool.and_true])
    show ((s.food_logs.filter fun e => strGe e.date ((subDays today 6).isoformat)).map
      fun e => e.calories).sum = _
    rw [hcong]
  · have hcong := filter_congr_mem s.exercise_logs
      (fun e => strGe e.date ((subDays today 6).isoformat))
      (fun e => strGe e.date ((subDays today 6).isoformat) && strGe today.isoformat e.date)
      (fun e he => by simp only [hex e he, Bool.and_true])
    show ((s.exercise_logs.filter fun e => strGe e.date ((subDays today 6).isoformat)).map
      fun e => e.calories_burned).sum = _
    rw [hcong]
  · intro e _ hd
    rw [hd]
    simp only [strGe, h7]
    rfl
  · intro e _ hd
    rw [hd]
    simp only [strGe, h7]
    rfl

/-- Today's date used by the weekly witness. -/
def demoToday : Date := ⟨2026, 10, 12⟩

/-- Food entry dated exactly 7 days before `demoToday` (excluded). -/
def wkFood1 : FoodEntry :=
  { date := "2026-10-05", meal := "toast", calories := 200, protein := 5,
    carbs := 30, fats := 3 }

/-- Food entry dated exactly 6 days before `demoToday` (boundary, included). -/
def wkFood2 : FoodEntry :=
  { date := "2026-10-06", meal := "eggs", calories := 300, protein := 20,
    carbs := 2, fats := 20 }

/-- Food entry dated `demoToday` (included). -/
def wkFood3 : FoodEntry :=
  { date := "2026-10-12", meal := "rice", calories := 400, protein := 8,
    carbs := 80, fats := 2 }

/-- Exercise entry dated exactly 7 days before `demoToday` (excluded). -/
def wkEx1 : ExerciseEntry :=
  { date := "2026-10-05", activity := "walk", calories_burned := 100 }

/-- Exercise entry inside the window. -/
def wkEx2 : ExerciseEntry :=
  { date := "2026-10-09", activity := "run", calories_burned := 350 }

/-- A well-formed store whose logs straddle the weekly window. -/
def demoWeek : Store :=
  { mkValidStore 180 80 75 30 "male" "sedentary" 1.2 with
    food_logs := [wkFood1, wkFood2, wkFood3]
    exercise_logs := [wkEx1, wkEx2] }

/-- Witness for C5 at concrete dates: the entry dated 2026-10-05 (exactly 7
days before 2026-10-12) is excluded, and the weekly food sum ranges over
exactly the two-sided window. -/
theorem c5_witness :
    strGe wkFood1.date ((subDays demoToday 6).isoformat) = false
    ∧ (weekly_summary demoWeek demoToday).food_cal
      = ((demoWeek.food_logs.filter fun e =>
          strGe e.date ((subDays demoToday 6).isoformat)
          && strGe demoToday.isoformat e.date).map fun e => e.calories).sum := by
  constructor
  · exact (c5_weekly_window demoWeek demoToday (by decide) (by decide)
      (by decide)).2.2.1 wkFood1 (List.Mem.head _) (by decide)
  · exact (c5_weekly_window demoWeek demoToday (by decide) (by decide)
      (by decide)).1

/-! ### Claim C6 -/

/-- Claim C6: constructor validation.  Each violated bound fails with the
source's ValueError for that check (checked in source order: numeric bounds,
then gender, then activity level), no store is produced on failure, and on
valid input construction succeeds with the computed derived metrics, empty
logs and default macro goals. -/
theorem c6_construct_validation (h w gw a : ℚ) (g al : String) :
    ((h ≤ 0 ∨ w ≤ 0 ∨ gw ≤ 0 ∨ a < 18 ∨ a > 100) →
      construct h w gw a g al
        = .error (.valueError "Invalid values: Height/weight must be >0, age 18-100."))
    ∧ (¬(h ≤ 0 ∨ w ≤ 0 ∨ gw ≤ 0 ∨ a < 18 ∨ a > 100) → strLower g ∉ genderList →
      construct h w gw a g al
        = .error (.valueError "Gender must be 'male' or 'female'."))
    ∧ (¬(h ≤ 0 ∨ w ≤ 0 ∨ gw ≤ 0 ∨ a < 18 ∨ a > 100) → strLower g ∈ genderList →
      strLower al ∉ activityList →
      construct h w gw a g al = .error (.valueError "Invalid activity level."))
    ∧ (¬(h ≤ 0 ∨ w ≤ 0 ∨ gw ≤ 0 ∨ a < 18 ∨ a > 100) → strLower g ∈ genderList →
      strLower al ∈ activityList →
      ∃ f, activityFactor (strLower al) = some f
        ∧ construct h w gw a g al
          = .ok (mkValidStore h w gw a (strLower g) (strLower al) f)) := by
  refine ⟨?_, ?_, ?_, ?_⟩
  · intro hv
    exact construct_eq_err_nums h w gw a g al hv
  · intro hv hg
    exact construct_eq_err_gender h w gw a g al hv hg
  · intro hv hg ha
    exact construct_eq_err_activity h w gw a g al hv hg ha
  · intro hv hg ha
    obtain ⟨f, hf⟩ := activityFactor_isSome _ ha
    exact ⟨f, hf, construct_eq_ok h w gw a g al f hv hg ha hf⟩

/-- Witness for C6: age 10 fails with the numeric-range error, gender
"other" with the gender error, activity "extreme" with the activity error,
and a fully valid input succeeds. -/
theorem c6_witness :
    construct 180 80 75 10 "male" "sedentary"
      = .error (.valueError "Invalid values: Height/weight must be >0, age 18-100.")
    ∧ construct 180 80 75 30 "other" "sedentary"
      = .error (.valueError "Gender must be 'male' or 'female'.")
    ∧ construct 180 80 75 30 "male" "extreme"
      = .error (.valueError "Invalid activity level.")
    ∧ ∃ f, activityFactor (strLower "sedentary") = some f
        ∧ construct 180 80 75 30 "male" "sedentary"
          = .ok (mkValidStore 180 80 75 30 (strLower "male") (strLower "sedentary") f) := by
  refine ⟨(c6_construct_validation 180 80 75 10 "male" "sedentary").1 (by norm_num),
    (c6_construct_validation 180 80 75 30 "other" "sedentary").2.1 (by norm_num)
      (by decide),
    (c6_construct_validation 180 80 75 30 "male" "extreme").2.2.1 (by norm_num)
      (by decide) (by decide),
    (c6_construct_validation 180 80 75 30 "male" "sedentary").2.2.2 (by norm_num)
      (by decide) (by decide)⟩

/-! ### Claim C7 -/

/-- Counterexample to C7: calling log_food with calories = −100 (< 0) does
not fail — it appends the entry.  (The source performs no validation in
log_food/log_exercise.) -/
theorem c7_counterexample :
    (-100 : ℚ) < 0
    ∧ (log_food (mkValidStore 180 80 75 30 "male" "sedentary" 1.2)
        "mystery snack" (-100) 0 0 0 "2026-10-12").food_logs
      = [⟨"2026-10-12", "mystery snack", -100, 0, 0, 0⟩] :=
  ⟨by norm_num, rfl⟩

/-- Claim C7 (amended): log_food and log_exercise never fail and never
validate: each appends exactly one entry carrying the given values (whatever
their sign, negative calories included) dated `today`, and leaves the other
log untouched. -/
theorem c7_log_appends_unconditionally (s : Store) (meal activity today : String)
    (calories protein carbs fats calories_burned : ℚ) :
    (log_food s meal calories protein carbs fats today).food_logs
      = s.food_logs ++ [⟨today, meal, calories, protein, carbs, fats⟩]
    ∧ (log_food s meal calories protein carbs fats today).exercise_logs
      = s.exercise_logs
    ∧ (log_exercise s activity calories_burned today).exercise_logs
      = s.exercise_logs ++ [⟨today, activity, calories_burned⟩]
    ∧ (log_exercise s activity calories_burned today).food_logs = s.food_logs :=
  ⟨rfl, rfl, rfl, rfl⟩

/-! ### Claim C8 -/

/-- A snapshot with a fully valid profile but no `food_logs` key. -/
def snapNoFood : Snapshot :=
  { height := some 180
    weight := some 80
    goal_weight := some 75
    age := some 30
    gender := some "male"
    activity_level := some "sedentary"
    food_logs := none
    exercise_logs := some []
    macro_goals := some { protein := 0.30, carbs := 0.50, fats := 0.20 } }

/-- A snapshot whose profile fails validation (age 10). -/
def snapBadAge : Snapshot :=
  { snapNoFood with
    age := some 10
    food_logs := some [] }

/-- Counterexample to C8: loading a snapshot that is merely missing the
`food_logs` key does not fail with a FormatError — it fails with a
`KeyError` (an uncaught crash of another kind; the source has no FormatError
at all). -/
theorem c8_counterexample :
    load_from_file snapNoFood = .error (.keyError "food_logs")
    ∧ Err.isFormat (.keyError "food_logs") = false := by
  constructor
  · have h1 : load_from_file snapNoFood
        = match construct 180 80 75 30 "male" "sedentary" with
          | .error e => Except.error e
          | .ok _ => Except.error (Err.keyError "food_logs") := rfl
    rw [h1, construct_demo_male]
  · rfl

/-- Claim C8 (amended): loading a snapshot with a missing `food_logs` key
fails with an (uncaught) KeyError, loading one whose profile fields fail
validation fails with the constructor's ValueError — in both cases no store
is produced and the missing logs are never silently treated as empty — and
neither failure is a FormatError, which the source never raises. -/
theorem c8_load_failure_kinds (d : Snapshot) (hq wq gwq aq : ℚ) (g al : String)
    (hh : d.height = some hq) (hw : d.weight = some wq)
    (hgw : d.goal_weight = some gwq) (hage : d.age = some aq)
    (hg : d.gender = some g) (hal : d.activity_level = some al) :
    ((∃ t, construct hq wq gwq aq g al = .ok t) → d.food_logs = none →
      load_from_file d = .error (.keyError "food_logs"))
    ∧ (∀ m, construct hq wq gwq aq g al = .error (.valueError m) →
      load_from_file d = .error (.valueError m))
    ∧ Err.isFormat (.keyError "food_logs") = false
    ∧ (∀ m, Err.isFormat (.valueError m) = false) := by
  obtain ⟨dh, dw, dgw, da, dg, dal, dfl, del, dmg⟩ := d
  dsimp only at hh hw hgw hage hg hal
  subst hh hw hgw hage hg hal
  refine ⟨?_, ?_, rfl, fun m => rfl⟩
  · rintro ⟨t, ht⟩ hfl
    dsimp only at hfl
    subst hfl
    simp only [load_from_file, ht]
  · intro m hm
    simp only [load_from_file, hm]

/-- Witness for C8: the concrete snapshots `snapNoFood` (missing food_logs,
valid profile) and `snapBadAge` (age 10). -/
theorem c8_witness :
    load_from_file snapNoFood = .error (.keyError "food_logs")
    ∧ load_from_file snapBadAge
      = .error (.valueError "Invalid values: Height/weight must be >0, age 18-100.")
    ∧ Err.isFormat (.keyError "food_logs") = false := by
  refine ⟨?_, ?_, ?_⟩
  · exact (c8_load_failure_kinds snapNoFood 180 80 75 30 "male" "sedentary"
      rfl rfl rfl rfl rfl rfl).1 ⟨_, construct_demo_male⟩ rfl
  · exact (c8_load_failure_kinds snapBadAge 180 80 75 10 "male" "sedentary"
      rfl rfl rfl rfl rfl rfl).2.1 _
      (construct_eq_err_nums 180 80 75 10 "male" "sedentary" (by norm_num))
  · exact (c8_load_failure_kinds snapNoFood 180 80 75 30 "male" "sedentary"
      rfl rfl rfl rfl rfl rfl).2.2.1

/-! ### Claim C9 -/

/-- Claim C9: daily_summary on a date with no matching entries is total and
returns zero sums; because total_macros_cal = protein·4 + carbs·4 + fats·9
is 0, the percentage branch is not taken (macro_pcts = none), so the three
divisions by total_macros_cal are never executed. -/
theorem c9_daily_summary_no_entries (s : Store) (d : String)
    (hfood : ∀ e ∈ s.food_logs, e.date ≠ d)
    (hex : ∀ e ∈ s.exercise_logs, e.date ≠ d) :
    (daily_summary s d).food_cal = 0
    ∧ (daily_summary s d).exercise_cal = 0
    ∧ (daily_summary s d).total_protein = 0
    ∧ (daily_summary s d).total_carbs = 0
    ∧ (daily_summary s d).total_fats = 0
    ∧ (daily_summary s d).total_macros_cal = 0
    ∧ (daily_summary s d).macro_pcts = none := by
  have hf : s.food_logs.filter (fun l => l.date == d) = [] :=
    filter_eq_nil_of_none _ _ (fun e he => by simp [hfood e he])
  have he : s.exercise_logs.filter (fun l => l.date == d) = [] :=
    filter_eq_nil_of_none _ _ (fun e he2 => by simp [hex e he2])
  simp only [daily_summary, hf, he, List.map_nil, List.sum_nil]
  norm_num

/-- Witness for C9: the demo store has no entry dated 2026-09-01. -/
theorem c9_witness :
    (daily_summary demoStore "2026-09-01").food_cal = 0
    ∧ (daily_summary demoStore "2026-09-01").exercise_cal = 0
    ∧ (daily_summary demoStore "2026-09-01").total_protein = 0
    ∧ (daily_summary demoStore "2026-09-01").total_carbs = 0
    ∧ (daily_summary demoStore "2026-09-01").total_fats = 0
    ∧ (daily_summary demoStore "2026-09-01").total_macros_cal = 0
    ∧ (daily_summary demoStore "2026-09-01").macro_pcts = none :=
  c9_daily_summary_no_entries demoStore "2026-09-01" (by decide) (by decide)

/-! ### Claim C10 -/

/-- Claim C10: the queries daily_summary, weekly_summary and view_logs leave
the whole store unchanged — translated as state transformers, the post-call
state is the input state (the source methods never assign to any attribute
of `self`). -/
theorem c10_queries_leave_state_unchanged (s : Store) (d : String) (today : Date)
    (type : String) (ds : Option String) :
    (daily_summaryS s d).2 = s
    ∧ (weekly_summaryS s today).2 = s
    ∧ (view_logsS s type ds).2 = s :=
  ⟨rfl, rfl, rfl⟩
